import Mathlib

/-
Shallow embedding of the KPMG internship project frontend
(src/frontend/src/App.js, src/frontend/src/services/api.js) and proofs
about its conversation-store, upload-staging and relay-client logic.

The React component state is modelled as an explicit record, each event
handler as a pure state transformer; the outcomes of asynchronous HTTP
calls are passed in explicitly, and the requests a handler issues are
returned as an explicit trace.
-/

namespace KpmgChat

/-- JavaScript falsy-default: `a || b` on an optional string, where the
empty string counts as falsy (used for `error.response.data.error || ...`
and `process.env.REACT_APP_API_URL || ...`). -/
def jsOrDefault (a : Option String) (b : String) : String :=
  match a with
  | some s => if s = "" then b else s
  | none => b

/-- JS String.prototype.trim: strip leading and trailing whitespace,
written over the character list so it evaluates by computation. -/
def jsTrim (s : String) : String :=
  String.mk (((s.data.dropWhile Char.isWhitespace).reverse.dropWhile
    Char.isWhitespace).reverse)

/-- JS String.prototype.toLowerCase, characterwise. -/
def jsToLower (s : String) : String :=
  String.mk (s.data.map Char.toLower)

/-- JS String.prototype.endsWith, over the character lists. -/
def jsEndsWith (s suffixStr : String) : Bool :=
  suffixStr.data.isSuffixOf s.data

/-- A browser File object, reduced to what the code inspects: its name. -/
structure JsFile where
  name : String
deriving Repr, DecidableEq

/-- A message record, as built in handleSendMessage in App.js.
User messages carry a color; error replies carry isError: true; the
absence of the isError key in the source is modelled as false (JS
falsiness of undefined). -/
structure Msg where
  id : Nat
  role : String
  content : String
  timestamp : String
  color : Option String := none
  isError : Bool := false
deriving Repr, DecidableEq

/-- The useState fields of AppContent in App.js that the handlers under
study read or write. -/
structure AppState where
  messages : List Msg
  inputMessage : String
  selectedColor : String
  clientFiles : List JsFile
  uploadedClientFiles : List JsFile
  clientDragActive : Bool
  policyFiles : List JsFile
  uploadedPolicyFiles : List JsFile
  isLoading : Bool
deriving Repr, DecidableEq

/-- The initial component state (the useState initialisers in App.js). -/
def initialState : AppState :=
  { messages := []
    inputMessage := ""
    selectedColor := "blue"
    clientFiles := []
    uploadedClientFiles := []
    clientDragActive := false
    policyFiles := []
    uploadedPolicyFiles := []
    isLoading := false }

/-! ## Relay client (src/frontend/src/services/api.js) -/

/-- API_BASE_URL: the environment variable REACT_APP_API_URL when set and
non-empty, else the local default. -/
def apiBaseURL (envUrl : Option String) : String :=
  jsOrDefault envUrl "http://localhost:5000"

/-- The default headers of the axios instance created in api.js. -/
def apiInstanceHeaders : List (String × String) :=
  [("Content-Type", "application/json")]

/-- One entry of the conversationHistory array sent to /api/chat:
the projection of a message to its role and content fields. -/
structure HistEntry where
  role : String
  content : String
deriving Repr, DecidableEq

/-- The JSON body sendMessageToAI posts to /api/chat. -/
structure ChatBody where
  message : String
  conversationHistory : List HistEntry
deriving Repr, DecidableEq

/-- Body construction in sendMessageToAI: the given message together with
the history mapped entrywise to its role and content fields. -/
def chatRequestBody (message : String) (conversationHistory : List Msg) : ChatBody :=
  { message := message
    conversationHistory :=
      conversationHistory.map (fun msg => { role := msg.role, content := msg.content }) }

/-- The request sendMessageToAI issues, as observable data: URL (relative
to the axios instance base), the headers the instance attaches, and the
body. The session argument models the ambient MSAL authentication
session; the source code of api.js consults no session and registers no
interceptor, so the construction ignores it. -/
structure ChatPostRequest where
  url : String
  headers : List (String × String)
  body : ChatBody
deriving Repr, DecidableEq

def buildChatRequest (session : Option String) (message : String)
    (history : List Msg) : ChatPostRequest :=
  { url := "/api/chat"
    headers := apiInstanceHeaders
    body := chatRequestBody message history }

/-- The ways an axios call can fail, as the catch blocks in api.js
distinguish them: error.response present (a non-2xx response with a
status and an optional data.error field), error.request present (request
sent, no response), or neither (request setup failed). -/
inductive AxiosFailure
  | response (status : Nat) (errorField : Option String)
  | request
  | setup
deriving Repr, DecidableEq

/-- Error translation in sendMessageToAI: success returns response.data
unchanged; error.response throws the server-supplied message with a
default; error.request and setup errors throw fixed messages. -/
def sendMessageToAIResult {α : Type} (outcome : Except AxiosFailure α) : Except String α :=
  match outcome with
  | .ok data => .ok data
  | .error (.response _ errorField) =>
      .error (jsOrDefault errorField "Server error occurred")
  | .error .request =>
      .error "No response from server. Please check your connection."
  | .error .setup => .error "Error sending request"

/-- Error translation in ragQuery: textually the same catch block as in
sendMessageToAI. -/
def ragQueryResult {α : Type} (outcome : Except AxiosFailure α) : Except String α :=
  match outcome with
  | .ok data => .ok data
  | .error (.response _ errorField) =>
      .error (jsOrDefault errorField "Server error occurred")
  | .error .request =>
      .error "No response from server. Please check your connection."
  | .error .setup => .error "Error sending request"

/-- A value appended to a FormData object: a plain string or a file. -/
inductive FormValue
  | str (s : String)
  | file (f : JsFile)
deriving Repr, DecidableEq

/-- The multipart request uploadExcelFile issues. -/
structure MultipartRequest where
  url : String
  contentType : String
  formData : List (String × FormValue)
deriving Repr, DecidableEq

/-- Request construction in uploadExcelFile: one multipart POST to
API_BASE_URL/api/upload-excel-direct whose form data holds the single
given file under the key file and a constant userId string. -/
def uploadExcelRequest (envUrl : Option String) (file : JsFile) : MultipartRequest :=
  { url := apiBaseURL envUrl ++ "/api/upload-excel-direct"
    contentType := "multipart/form-data"
    formData := [("file", FormValue.file file), ("userId", FormValue.str "client-123")] }

/-- The files a multipart request carries under the form-data key file. -/
def fileFieldFiles (r : MultipartRequest) : List JsFile :=
  r.formData.filterMap (fun p =>
    if p.1 = "file" then
      match p.2 with
      | FormValue.file f => some f
      | FormValue.str _ => none
    else none)

/-! ## Upload handlers (App.js) -/

/-- The JSON body of a successful /api/upload-excel-direct response. -/
structure UploadResult where
  rowsProcessed : Option Nat := none
  rowsQueued : Option Nat := none
deriving Repr, DecidableEq

/-- The JSON body of a successful /api/upload-policy-documents response. -/
structure PolicyUploadResult where
  filesProcessed : Nat
deriving Repr, DecidableEq

/-- handleClientFileUpload in App.js: with an empty staged list it only
alerts; otherwise it uploads clientFiles[0], and on success stores [file]
as the uploaded list and clears the staged list, while on a thrown error
it only alerts, leaving state unchanged. -/
def handleClientFileUpload (s : AppState) (outcome : Except String UploadResult) : AppState :=
  match s.clientFiles with
  | [] => s
  | file :: _ =>
    match outcome with
    | .ok _ => { s with uploadedClientFiles := [file], clientFiles := [] }
    | .error _ => s

/-- The multipart requests a call to handleClientFileUpload issues: none
with an empty staged list, else the single uploadExcelFile request for
clientFiles[0]. -/
def clientUploadRequests (envUrl : Option String) (s : AppState) : List MultipartRequest :=
  match s.clientFiles with
  | [] => []
  | file :: _ => [uploadExcelRequest envUrl file]

/-- handlePolicyDocumentUpload in App.js: with an empty staged list it
only alerts; otherwise on success it stores the whole staged list as the
uploaded list and clears the staged list; on a thrown error it only
alerts, leaving state unchanged. -/
def handlePolicyDocumentUpload (s : AppState)
    (outcome : Except String PolicyUploadResult) : AppState :=
  match s.policyFiles with
  | [] => s
  | _ :: _ =>
    match outcome with
    | .ok _ => { s with uploadedPolicyFiles := s.policyFiles, policyFiles := [] }
    | .error _ => s

/-- handleClientDrop in App.js: deactivate the drag highlight, keep the
dropped files whose lowercased names end in .csv, and append them to the
staged list when there is at least one (the setClientFiles call is
guarded by the JS truthiness of csvFiles.length). -/
def handleClientDrop (s : AppState) (dropped : List JsFile) : AppState :=
  let s1 := { s with clientDragActive := false }
  let csvFiles := dropped.filter (fun f => jsEndsWith (jsToLower f.name) ".csv")
  if csvFiles.length = 0 then s1
  else { s1 with clientFiles := s1.clientFiles ++ csvFiles }

/-! ## Chat handlers (App.js) -/

/-- The JSON body of a successful /api/rag-query response, reduced to the
answer field the caller inspects. -/
structure RagData where
  answer : Option String
deriving Repr, DecidableEq

/-- JS truthiness of ragResult && ragResult.answer: the answer string when
the response data is non-null and the answer field is present and
non-empty, else nothing. -/
def jsTruthyAnswer : Option RagData → Option String
  | none => none
  | some r =>
    match r.answer with
    | none => none
    | some a => if a = "" then none else some a

/-- The JSON body of a successful /api/chat response, reduced to the
message field the caller reads. -/
structure ChatResponseData where
  message : String
deriving Repr, DecidableEq

/-- A network request handleSendMessage can issue, as recorded data. -/
inductive ApiRequest
  | ragQueryReq (question : String)
  | chatReq (body : ChatBody)
deriving Repr, DecidableEq

/-- The content of the error reply appended in the catch branch. -/
def errorReplyContent : String := "Sorry, I encountered an error. Please try again."

/-- handleSendMessage in App.js, as a pure transformer. now stands for
Date.now() and ts, ts2 for the two ISO timestamps; ragOutcome and
chatOutcome are the outcomes of the awaited ragQuery and sendMessageToAI
calls. The returned list records the requests issued, in order. The
local JS variables inputMessage and messages keep their values captured
at entry, so the RAG query and the fallback chat call both use the
original input, and the fallback sends the history from before the user
message was appended. -/
def handleSendMessage (s : AppState) (now : Nat) (ts ts2 : String)
    (ragOutcome : Except String (Option RagData))
    (chatOutcome : Except String ChatResponseData) :
    AppState × List ApiRequest :=
  if jsTrim s.inputMessage = "" || s.isLoading then (s, [])
  else
    let userMessage : Msg :=
      { id := now, role := "user", content := s.inputMessage
        color := some s.selectedColor, timestamp := ts }
    let s1 := { s with messages := s.messages ++ [userMessage]
                       inputMessage := ""
                       isLoading := true }
    let finishOk (content : String) (reqs : List ApiRequest) : AppState × List ApiRequest :=
      ({ s1 with
          messages := s1.messages ++
            [{ id := now + 1, role := "assistant", content := content, timestamp := ts2 }]
          isLoading := false }, reqs)
    let finishErr (reqs : List ApiRequest) : AppState × List ApiRequest :=
      ({ s1 with
          messages := s1.messages ++
            [{ id := now + 1, role := "assistant", content := errorReplyContent
               timestamp := ts2, isError := true }]
          isLoading := false }, reqs)
    match ragOutcome with
    | .error _ => finishErr [ApiRequest.ragQueryReq s.inputMessage]
    | .ok ragResult =>
      match jsTruthyAnswer ragResult with
      | some ans => finishOk ans [ApiRequest.ragQueryReq s.inputMessage]
      | none =>
        match chatOutcome with
        | .ok resp =>
            finishOk resp.message
              [ApiRequest.ragQueryReq s.inputMessage,
               ApiRequest.chatReq (chatRequestBody s.inputMessage s.messages)]
        | .error _ =>
            finishErr
              [ApiRequest.ragQueryReq s.inputMessage,
               ApiRequest.chatReq (chatRequestBody s.inputMessage s.messages)]

/-- handleClearChat in App.js: setMessages([]). -/
def handleClearChat (s : AppState) : AppState :=
  { s with messages := [] }

/-- The two kinds of setMessages calls appearing in App.js: the three
functional updates prev => [...prev, m] (user, assistant and error
messages in handleSendMessage) and setMessages([]) in handleClearChat. -/
inductive ConvOp
  | appendMsg (m : Msg)
  | clearChat
deriving Repr, DecidableEq

/-- Effect of a conversation operation on the message sequence. -/
def applyConvOp : ConvOp → List Msg → List Msg
  | ConvOp.appendMsg m, ms => ms ++ [m]
  | ConvOp.clearChat, _ => []

/-- Whether a send with the given call outcomes takes the success path:
either the RAG result has a truthy answer, or it has none and the
fallback chat call succeeds. -/
def sendSucceeded (ragOutcome : Except String (Option RagData))
    (chatOutcome : Except String ChatResponseData) : Bool :=
  match ragOutcome with
  | .error _ => false
  | .ok ragResult =>
    match jsTruthyAnswer ragResult with
    | some _ => true
    | none =>
      match chatOutcome with
      | .ok _ => true
      | .error _ => false

/-- A sample staged tabular file. -/
def csvA : JsFile := { name := "a.csv" }

/-- A second sample staged tabular file. -/
def csvB : JsFile := { name := "b.csv" }

/-- A sample staged policy document. -/
def pdfP : JsFile := { name := "policy.pdf" }

/-- A state with one staged tabular file and one staged policy file. -/
def stagedState : AppState :=
  { initialState with clientFiles := [csvA], policyFiles := [pdfP] }

/-- A state with two staged tabular files. -/
def twoStagedState : AppState :=
  { initialState with clientFiles := [csvA, csvB] }

/-! ## Helper lemmas -/

lemma filter_filter_not {α : Type} (p : α → Bool) (l : List α) :
    (l.filter (fun a => !(p a))).filter p = [] := by
  induction l with
  | nil => rfl
  | cons a t ih =>
    by_cases h : p a = true <;>
      simp [List.filter_cons, h, ih]

lemma handleClientDrop_clientFiles (s : AppState) (dropped : List JsFile) :
    (handleClientDrop s dropped).clientFiles
      = s.clientFiles ++ dropped.filter (fun f => jsEndsWith (jsToLower f.name) ".csv") := by
  by_cases h : (dropped.filter (fun f => jsEndsWith (jsToLower f.name) ".csv")).length = 0
  · have he : dropped.filter (fun f => jsEndsWith (jsToLower f.name) ".csv") = [] :=
      List.length_eq_zero.mp h
    simp [handleClientDrop, he]
  · simp [handleClientDrop, h]

/-! ## Theorems about the claims -/

/-- C8: the conversation sequence is append-only up to clearing. Every
setMessages call in App.js either appends one message at the end or
empties the list; clearing always yields the empty conversation; and a
send leaves the previous sequence intact as a prefix of the new one, so
no existing message is edited, deleted or reordered. -/
theorem conversation_append_only :
    (∀ (op : ConvOp) (ms : List Msg),
        (∃ m, applyConvOp op ms = ms ++ [m]) ∨ applyConvOp op ms = []) ∧
    (∀ ms : List Msg, applyConvOp ConvOp.clearChat ms = []) ∧
    (∀ s : AppState, (handleClearChat s).messages = []) ∧
    (∀ (s : AppState) (now : Nat) (ts ts2 : String)
        (ragOutcome : Except String (Option RagData))
        (chatOutcome : Except String ChatResponseData),
        s.messages <+: (handleSendMessage s now ts ts2 ragOutcome chatOutcome).1.messages) := by
  refine ⟨?_, ?_, ?_, ?_⟩
  · intro op ms
    cases op with
    | appendMsg m => exact Or.inl ⟨m, rfl⟩
    | clearChat => exact Or.inr rfl
  · intro ms; rfl
  · intro s; rfl
  · intro s now ts ts2 ragOutcome chatOutcome
    have hp : ∀ (t u : List Msg), s.messages <+: (s.messages ++ t) ++ u := by
      intro t u
      rw [List.append_assoc]
      exact List.prefix_append _ _
    cases ragOutcome with
    | error e =>
      simp only [handleSendMessage]
      split
      · exact List.prefix_rfl
      · exact hp _ _
    | ok r =>
      cases hr : jsTruthyAnswer r with
      | some a =>
        simp only [handleSendMessage, hr]
        split
        · exact List.prefix_rfl
        · exact hp _ _
      | none =>
        cases chatOutcome with
        | ok resp =>
          simp only [handleSendMessage, hr]
          split
          · exact List.prefix_rfl
          · exact hp _ _
        | error e =>
          simp only [handleSendMessage, hr]
          split
          · exact List.prefix_rfl
          · exact hp _ _

/-- C9: sendMessageToAI posts to /api/chat the body consisting of the
given message and the history projected entrywise to role and content,
preserving order and length. -/
theorem chat_history_projection (message : String) (history : List Msg) :
    (chatRequestBody message history).message = message ∧
    (chatRequestBody message history).conversationHistory
      = history.map (fun m => ({ role := m.role, content := m.content } : HistEntry)) ∧
    (chatRequestBody message history).conversationHistory.length = history.length := by
  refine ⟨rfl, rfl, ?_⟩
  simp [chatRequestBody]

/-- C6: submitting the send form while isLoading is true is a no-op:
the component state, the message list included, is returned unchanged
and no request is issued, so the suppressed send is not queued. -/
theorem sendMessage_noop_while_loading (s : AppState) (now : Nat) (ts ts2 : String)
    (ragOutcome : Except String (Option RagData))
    (chatOutcome : Except String ChatResponseData)
    (h : s.isLoading = true) :
    handleSendMessage s now ts ts2 ragOutcome chatOutcome = (s, []) := by
  simp [handleSendMessage, h]

/-- Witness for C6 at a concrete loading state with non-empty input. -/
theorem sendMessage_noop_while_loading_witness :
    ({ initialState with inputMessage := "hi", isLoading := true } : AppState).isLoading = true ∧
    handleSendMessage { initialState with inputMessage := "hi", isLoading := true }
        0 "t1" "t2" (.ok none) (.ok { message := "reply" })
      = ({ initialState with inputMessage := "hi", isLoading := true }, []) :=
  ⟨rfl, sendMessage_noop_while_loading _ 0 "t1" "t2" _ _ rfl⟩

/-- C2: sending a non-empty (after trimming) message while not loading
appends exactly one user message carrying the input, followed by exactly
one assistant message, which is error-flagged exactly when neither the
RAG answer nor the fallback chat call succeeded; in the failure case the
user message stays in the conversation (no rollback). -/
theorem sendMessage_appends_user_then_reply (s : AppState) (now : Nat) (ts ts2 : String)
    (ragOutcome : Except String (Option RagData))
    (chatOutcome : Except String ChatResponseData)
    (h1 : jsTrim s.inputMessage ≠ "") (h2 : s.isLoading = false) :
    ∃ u a : Msg,
      (handleSendMessage s now ts ts2 ragOutcome chatOutcome).1.messages
        = s.messages ++ [u, a] ∧
      u.role = "user" ∧ u.content = s.inputMessage ∧ u.isError = false ∧
      a.role = "assistant" ∧
      (sendSucceeded ragOutcome chatOutcome = true → a.isError = false) ∧
      (sendSucceeded ragOutcome chatOutcome = false →
        a.isError = true ∧ a.content = errorReplyContent) := by
  cases ragOutcome with
  | error e =>
    refine ⟨{ id := now, role := "user", content := s.inputMessage
              color := some s.selectedColor, timestamp := ts },
            { id := now + 1, role := "assistant", content := errorReplyContent
              timestamp := ts2, isError := true }, ?_, rfl, rfl, rfl, rfl, ?_, ?_⟩
    · simp [handleSendMessage, h1, h2]
    · intro hs; simp [sendSucceeded] at hs
    · intro _; exact ⟨rfl, rfl⟩
  | ok r =>
    cases hr : jsTruthyAnswer r with
    | some ans =>
      refine ⟨{ id := now, role := "user", content := s.inputMessage
                color := some s.selectedColor, timestamp := ts },
              { id := now + 1, role := "assistant", content := ans
                timestamp := ts2 }, ?_, rfl, rfl, rfl, rfl, ?_, ?_⟩
      · simp [handleSendMessage, h1, h2, hr]
      · intro _; rfl
      · intro hs; simp [sendSucceeded, hr] at hs
    | none =>
      cases chatOutcome with
      | ok resp =>
        refine ⟨{ id := now, role := "user", content := s.inputMessage
                  color := some s.selectedColor, timestamp := ts },
                { id := now + 1, role := "assistant", content := resp.message
                  timestamp := ts2 }, ?_, rfl, rfl, rfl, rfl, ?_, ?_⟩
        · simp [handleSendMessage, h1, h2, hr]
        · intro _; rfl
        · intro hs; simp [sendSucceeded, hr] at hs
      | error ce =>
        refine ⟨{ id := now, role := "user", content := s.inputMessage
                  color := some s.selectedColor, timestamp := ts },
                { id := now + 1, role := "assistant", content := errorReplyContent
                  timestamp := ts2, isError := true }, ?_, rfl, rfl, rfl, rfl, ?_, ?_⟩
        · simp [handleSendMessage, h1, h2, hr]
        · intro hs; simp [sendSucceeded, hr] at hs
        · intro _; exact ⟨rfl, rfl⟩

/-- Witness for C2: a send from a concrete non-loading state with input
that survives trimming, with a RAG miss and a successful chat call. -/
theorem sendMessage_appends_user_then_reply_witness :
    jsTrim ({ initialState with inputMessage := "hi" } : AppState).inputMessage ≠ "" ∧
    ({ initialState with inputMessage := "hi" } : AppState).isLoading = false ∧
    (∃ u a : Msg,
      (handleSendMessage { initialState with inputMessage := "hi" }
          0 "t1" "t2" (.ok none) (.ok { message := "reply" })).1.messages
        = ({ initialState with inputMessage := "hi" } : AppState).messages ++ [u, a] ∧
      u.role = "user" ∧
      u.content = ({ initialState with inputMessage := "hi" } : AppState).inputMessage ∧
      u.isError = false ∧
      a.role = "assistant" ∧
      (sendSucceeded (.ok none) (.ok { message := "reply" }) = true → a.isError = false) ∧
      (sendSucceeded (.ok none) (.ok { message := "reply" }) = false →
        a.isError = true ∧ a.content = errorReplyContent)) :=
  ⟨by decide, rfl,
    sendMessage_appends_user_then_reply _ 0 "t1" "t2" _ _ (by decide) rfl⟩

/-- C10: a send issues the RAG query first, with the raw input; the
plain chat endpoint is contacted exactly when the RAG call succeeded
without a truthy answer, and its request body carries the history from
before the user message was appended; a failed RAG call issues no chat
request and the error-flagged reply is appended. -/
theorem sendMessage_rag_then_chat_fallback (s : AppState) (now : Nat) (ts ts2 : String)
    (ragOutcome : Except String (Option RagData))
    (chatOutcome : Except String ChatResponseData)
    (h1 : jsTrim s.inputMessage ≠ "") (h2 : s.isLoading = false) :
    ((handleSendMessage s now ts ts2 ragOutcome chatOutcome).2).head?
      = some (ApiRequest.ragQueryReq s.inputMessage) ∧
    (∀ e, ragOutcome = Except.error e →
      (handleSendMessage s now ts ts2 ragOutcome chatOutcome).2
          = [ApiRequest.ragQueryReq s.inputMessage] ∧
        ((handleSendMessage s now ts ts2 ragOutcome chatOutcome).1.messages.getLast?).map
            Msg.isError = some true) ∧
    (∀ r, ragOutcome = Except.ok r → jsTruthyAnswer r = none →
      (handleSendMessage s now ts ts2 ragOutcome chatOutcome).2
        = [ApiRequest.ragQueryReq s.inputMessage,
           ApiRequest.chatReq (chatRequestBody s.inputMessage s.messages)]) ∧
    (∀ r ans, ragOutcome = Except.ok r → jsTruthyAnswer r = some ans →
      (handleSendMessage s now ts ts2 ragOutcome chatOutcome).2
        = [ApiRequest.ragQueryReq s.inputMessage]) := by
  cases ragOutcome with
  | error e0 =>
    refine ⟨?_, ?_, ?_, ?_⟩
    · simp [handleSendMessage, h1, h2]
    · intro e _
      constructor
      · simp [handleSendMessage, h1, h2]
      · simp [handleSendMessage, h1, h2, List.getLast?_concat]
    · intro r hr
      exact absurd hr (by simp)
    · intro r ans hr _
      exact absurd hr (by simp)
  | ok r =>
    cases hr : jsTruthyAnswer r with
    | some ans =>
      refine ⟨?_, ?_, ?_, ?_⟩
      · simp [handleSendMessage, h1, h2, hr]
      · intro e he
        exact absurd he (by simp)
      · intro r2 hr2 hnone
        cases hr2
        rw [hr] at hnone
        exact absurd hnone (by simp)
      · intro r2 ans2 hr2 _
        cases hr2
        simp [handleSendMessage, h1, h2, hr]
    | none =>
      cases chatOutcome with
      | ok resp =>
        refine ⟨?_, ?_, ?_, ?_⟩
        · simp [handleSendMessage, h1, h2, hr]
        · intro e he
          exact absurd he (by simp)
        · intro r2 hr2 _
          cases hr2
          simp [handleSendMessage, h1, h2, hr]
        · intro r2 ans2 hr2 hsome
          cases hr2
          rw [hr] at hsome
          exact absurd hsome (by simp)
      | error ce =>
        refine ⟨?_, ?_, ?_, ?_⟩
        · simp [handleSendMessage, h1, h2, hr]
        · intro e he
          exact absurd he (by simp)
        · intro r2 hr2 _
          cases hr2
          simp [handleSendMessage, h1, h2, hr]
        · intro r2 ans2 hr2 hsome
          cases hr2
          rw [hr] at hsome
          exact absurd hsome (by simp)

/-- Witness for C10: a concrete send where the RAG call succeeds without
an answer, so the fallback chat request is issued with the pre-send
history. -/
theorem sendMessage_rag_then_chat_fallback_witness :
    jsTrim ({ initialState with inputMessage := "hello" } : AppState).inputMessage ≠ "" ∧
    ({ initialState with inputMessage := "hello" } : AppState).isLoading = false ∧
    ((handleSendMessage { initialState with inputMessage := "hello" }
        0 "t1" "t2" (.ok (some { answer := some "" })) (.ok { message := "reply" })).2).head?
      = some (ApiRequest.ragQueryReq
          ({ initialState with inputMessage := "hello" } : AppState).inputMessage) :=
  ⟨by decide, rfl,
    (sendMessage_rag_then_chat_fallback _ 0 "t1" "t2"
      (.ok (some { answer := some "" })) (.ok { message := "reply" })
      (by decide) rfl).1⟩

/-- C1 counterexample: with two staged tabular files and a successful
upload, only the first file reaches the uploaded list while the staged
list is emptied, so not every staged file was moved. -/
theorem clientUpload_drops_later_staged_files :
    (handleClientFileUpload twoStagedState
        (Except.ok { rowsProcessed := some 10 })).uploadedClientFiles = [csvA] ∧
    ([csvA] : List JsFile) ≠ twoStagedState.clientFiles ∧
    (handleClientFileUpload twoStagedState
        (Except.ok { rowsProcessed := some 10 })).clientFiles = [] := by
  refine ⟨rfl, ?_, rfl⟩
  decide

/-- C1 (amended): on a successful upload the staged policy list moves
wholesale to the uploaded policy list and is emptied, while for the
tabular list only the first staged file becomes the uploaded list (the
rest are discarded) and the staged list is emptied; a failed upload of
either kind leaves the state exactly as it was. -/
theorem upload_success_moves_failure_preserves (s : AppState) (f g : JsFile)
    (cs ps : List JsFile) (r : UploadResult) (p : PolicyUploadResult) (e1 e2 : String)
    (hc : s.clientFiles = f :: cs) (hp : s.policyFiles = g :: ps) :
    (handleClientFileUpload s (Except.ok r)).uploadedClientFiles = [f] ∧
    (handleClientFileUpload s (Except.ok r)).clientFiles = [] ∧
    handleClientFileUpload s (Except.error e1) = s ∧
    (handlePolicyDocumentUpload s (Except.ok p)).uploadedPolicyFiles = s.policyFiles ∧
    (handlePolicyDocumentUpload s (Except.ok p)).policyFiles = [] ∧
    handlePolicyDocumentUpload s (Except.error e2) = s := by
  refine ⟨?_, ?_, ?_, ?_, ?_, ?_⟩ <;>
    simp [handleClientFileUpload, handlePolicyDocumentUpload, hc, hp]

/-- Witness for C1 at the state of the spec example: one staged tabular
file a.csv and one staged policy document, with the success response
rowsProcessed = 10. -/
theorem upload_success_moves_failure_preserves_witness :
    (stagedState.clientFiles = csvA :: [] ∧ stagedState.policyFiles = pdfP :: []) ∧
    ((handleClientFileUpload stagedState
        (Except.ok { rowsProcessed := some 10 })).uploadedClientFiles = [csvA] ∧
     (handleClientFileUpload stagedState
        (Except.ok { rowsProcessed := some 10 })).clientFiles = [] ∧
     handleClientFileUpload stagedState (Except.error "Upload failed") = stagedState ∧
     (handlePolicyDocumentUpload stagedState
        (Except.ok { filesProcessed := 1 })).uploadedPolicyFiles = stagedState.policyFiles ∧
     (handlePolicyDocumentUpload stagedState
        (Except.ok { filesProcessed := 1 })).policyFiles = [] ∧
     handlePolicyDocumentUpload stagedState (Except.error "Upload failed") = stagedState) :=
  ⟨⟨rfl, rfl⟩,
    upload_success_moves_failure_preserves stagedState csvA pdfP [] []
      { rowsProcessed := some 10 } { filesProcessed := 1 }
      "Upload failed" "Upload failed" rfl rfl⟩

/-- C3 counterexample: a 401 response is translated to exactly the same
thrown error as a 500 response carrying the same server message, so no
distinct AuthFailure outcome exists; the 401 failure is the generic
server-error one. -/
theorem relay_401_not_distinguished :
    @sendMessageToAIResult ChatResponseData
        (Except.error (AxiosFailure.response 401 (some "Unauthorized")))
      = Except.error "Unauthorized" ∧
    @sendMessageToAIResult ChatResponseData
        (Except.error (AxiosFailure.response 401 (some "Unauthorized")))
      = @sendMessageToAIResult ChatResponseData
          (Except.error (AxiosFailure.response 500 (some "Unauthorized"))) ∧
    @ragQueryResult (Option RagData)
        (Except.error (AxiosFailure.response 401 (some "Unauthorized")))
      = @ragQueryResult (Option RagData)
          (Except.error (AxiosFailure.response 500 (some "Unauthorized"))) :=
  ⟨rfl, rfl, rfl⟩

/-- C3 (amended): every relay-client call either returns the response
data unchanged or fails with exactly one of three typed failures, chosen
by the outcome kind: the server-error message (server-supplied text or a
default) for any response regardless of status, 401 included; the
no-response message when the request was sent but nothing came back; and
the request-setup message otherwise. -/
theorem relay_error_taxonomy {α : Type} (outcome : Except AxiosFailure α) :
    (∃ d, outcome = Except.ok d ∧ sendMessageToAIResult outcome = Except.ok d ∧
        ragQueryResult outcome = Except.ok d) ∨
    (∃ st ef, outcome = Except.error (AxiosFailure.response st ef) ∧
        sendMessageToAIResult outcome
          = Except.error (jsOrDefault ef "Server error occurred") ∧
        ragQueryResult outcome
          = Except.error (jsOrDefault ef "Server error occurred")) ∨
    (outcome = Except.error AxiosFailure.request ∧
        sendMessageToAIResult outcome
          = Except.error "No response from server. Please check your connection." ∧
        ragQueryResult outcome
          = Except.error "No response from server. Please check your connection.") ∨
    (outcome = Except.error AxiosFailure.setup ∧
        sendMessageToAIResult outcome = Except.error "Error sending request" ∧
        ragQueryResult outcome = Except.error "Error sending request") := by
  cases outcome with
  | ok d => exact Or.inl ⟨d, rfl, rfl, rfl⟩
  | error f =>
    cases f with
    | response st ef => exact Or.inr (Or.inl ⟨st, ef, rfl, rfl, rfl⟩)
    | request => exact Or.inr (Or.inr (Or.inl ⟨rfl, rfl, rfl⟩))
    | setup => exact Or.inr (Or.inr (Or.inr ⟨rfl, rfl, rfl⟩))

/-- C4 counterexample: with two staged files the upload issues a single
request whose file field carries only the first staged file, not the
whole staged batch. -/
theorem clientUpload_request_omits_second_file :
    clientUploadRequests none twoStagedState = [uploadExcelRequest none csvA] ∧
    fileFieldFiles (uploadExcelRequest none csvA) = [csvA] ∧
    fileFieldFiles (uploadExcelRequest none csvA) ≠ twoStagedState.clientFiles := by
  refine ⟨rfl, rfl, ?_⟩
  decide

/-- C4 (amended): for every non-empty staged tabular list the upload
submits exactly one multipart request to API_BASE_URL plus
/api/upload-excel-direct, carrying only the first staged file under the
field file together with a constant userId field. -/
theorem clientUpload_single_request_first_file (envUrl : Option String) (s : AppState)
    (f : JsFile) (rest : List JsFile) (h : s.clientFiles = f :: rest) :
    clientUploadRequests envUrl s = [uploadExcelRequest envUrl f] ∧
    (uploadExcelRequest envUrl f).url = apiBaseURL envUrl ++ "/api/upload-excel-direct" ∧
    (uploadExcelRequest envUrl f).contentType = "multipart/form-data" ∧
    fileFieldFiles (uploadExcelRequest envUrl f) = [f] := by
  refine ⟨?_, rfl, rfl, ?_⟩
  · simp [clientUploadRequests, h]
  · simp [fileFieldFiles, uploadExcelRequest]

/-- Witness for C4 at the one-file staged state. -/
theorem clientUpload_single_request_first_file_witness :
    stagedState.clientFiles = csvA :: [] ∧
    (clientUploadRequests (some "http://api.example") stagedState
        = [uploadExcelRequest (some "http://api.example") csvA] ∧
     (uploadExcelRequest (some "http://api.example") csvA).url
        = apiBaseURL (some "http://api.example") ++ "/api/upload-excel-direct" ∧
     (uploadExcelRequest (some "http://api.example") csvA).contentType
        = "multipart/form-data" ∧
     fileFieldFiles (uploadExcelRequest (some "http://api.example") csvA) = [csvA]) :=
  ⟨rfl, clientUpload_single_request_first_file (some "http://api.example")
    stagedState csvA [] rfl⟩

/-- C5 counterexample: with an ambient session available, the chat
request is built exactly as without one and carries no Authorization
header at all, so it does not carry a bearer token from the session. -/
theorem chat_request_carries_no_bearer_token :
    buildChatRequest (some "session-token") "hello" []
      = buildChatRequest none "hello" [] ∧
    (buildChatRequest (some "session-token") "hello" []).headers
      = [("Content-Type", "application/json")] ∧
    ((buildChatRequest (some "session-token") "hello" []).headers.all
        (fun p => p.1 != "Authorization")) = true :=
  ⟨rfl, rfl, rfl⟩

/-- C5 (amended): relay-client requests never carry a bearer token. The
request is independent of whether an ambient auth session is available,
and its headers are exactly the JSON content-type header of the axios
instance, with no Authorization entry. -/
theorem relay_requests_ignore_session (session : Option String) (message : String)
    (history : List Msg) :
    buildChatRequest session message history = buildChatRequest none message history ∧
    (buildChatRequest session message history).headers = apiInstanceHeaders ∧
    ((buildChatRequest session message history).headers.all
        (fun p => p.1 != "Authorization")) = true :=
  ⟨rfl, rfl, rfl⟩

/-- C7 counterexample: a dropped file named A.CSV does not end in the
literal lowercase suffix .csv, yet it is appended to the staged list. -/
theorem drop_appends_uppercase_csv :
    (handleClientDrop initialState [{ name := "A.CSV" }]).clientFiles
      = [{ name := "A.CSV" }] ∧
    jsEndsWith "A.CSV" ".csv" = false := by
  refine ⟨?_, ?_⟩ <;> decide

/-- C7 (amended): dropping files onto the tabular zone appends exactly
the files whose lowercased names end in .csv, in order; dropping only
files without a case-insensitive .csv extension leaves the staged list
unchanged. -/
theorem drop_filters_csv_case_insensitively (s : AppState) (dropped : List JsFile) :
    (handleClientDrop s dropped).clientFiles
      = s.clientFiles ++ dropped.filter (fun f => jsEndsWith (jsToLower f.name) ".csv") ∧
    (handleClientDrop s
        (dropped.filter (fun f => !(jsEndsWith (jsToLower f.name) ".csv")))).clientFiles
      = s.clientFiles := by
  refine ⟨handleClientDrop_clientFiles s dropped, ?_⟩
  rw [handleClientDrop_clientFiles,
    filter_filter_not (fun f => jsEndsWith (jsToLower f.name) ".csv") dropped]
  simp

end KpmgChat
